import Mathlib

/-!
Shallow embedding of `analytics/rights_report.py` from the LegalHuB repository.

The script reads `user_activity.csv`, filters the event rows into a search
segment and a download segment by the `action` column (case-insensitively),
ranks values of the optional columns `term`, `form_id` and `category` by
frequency (pandas `value_counts().nlargest(10)`), renders one bar chart per
available column into `analytics_reports/`, and assembles an HTML report with
summary statistics and one section per produced chart.

Modelling choices, all taken from the source (and from the semantics of the
pandas primitives the source calls):

* A parsed table is a list of column names plus rows of optional string cells;
  a `none` cell models a missing value (NaN).
* `pd.read_csv(path, parse_dates=["timestamp"])` fails when the file is not
  parseable as tabular data, or when the `timestamp` column named in
  `parse_dates` is absent.
* `df[col]` with an absent column raises `KeyError`; boolean-mask selection
  `df[mask]` builds a new frame and leaves the source frame unchanged.
* `series.value_counts()` counts distinct values (hash table keyed in first
  encounter order) and sorts the counts descending with a stable order, so
  equal counts stay in first-encounter order; `nlargest(n)` keeps the first
  `n` entries of that order.  `NaN` values were dropped by the caller via
  `dropna()` before ranking.
* Plotting a ranked count series always succeeds (the counts column is
  numeric, so an empty ranking renders as an empty chart rather than raising),
  and `plot_and_save` returns the output path unconditionally.
-/

namespace RightsReport

/-- A parsed tabular file: column headers plus rows of cells.  A cell holds
`none` where the CSV had a missing value (pandas NaN). -/
structure Table where
  columns : List String
  rows : List (List (Option String))
deriving DecidableEq

/-- `INPUT_CSV = "user_activity.csv"` from the script. -/
def INPUT_CSV : String := "user_activity.csv"

/-- `OUT_DIR = "analytics_reports"` from the script. -/
def OUT_DIR : String := "analytics_reports"

/-- Cell of one row under a column name: `none` when the column is absent or
the stored value is missing. -/
def cell (t : Table) (r : List (Option String)) (c : String) : Option String :=
  match t.columns.findIdx? (fun x => x == c) with
  | none => none
  | some i => (r.get? i).join

/-- The column `df[c]` as a list of optional values, one per row. -/
def colValues (t : Table) (c : String) : List (Option String) :=
  t.rows.map (fun r => cell t r c)

/-- pandas `series.dropna()`: keep only the present values. -/
def dropna (s : List (Option String)) : List String :=
  s.filterMap id

/-- Python `str.lower()`: lowercase every character.  (Stated over the
character list so that it computes by structural recursion; ASCII suffices
for the action labels involved.) -/
def lowerStr (s : String) : String :=
  ⟨s.data.map Char.toLower⟩

/-- The boolean mask `df["action"].str.lower() == "search"` evaluated on one
row.  A missing action value compares unequal (NaN propagates to `False`). -/
def searchMask (df : Table) (r : List (Option String)) : Bool :=
  (cell df r "action").map lowerStr == some "search"

/-- The boolean mask `df["action"].str.lower().isin(["download", "downloaded"])`
evaluated on one row. -/
def downloadMask (df : Table) (r : List (Option String)) : Bool :=
  match (cell df r "action").map lowerStr with
  | some a => a == "download" || a == "downloaded"
  | none => false

/-- pandas boolean-mask selection `df[mask]`: builds a *new* frame containing
the rows satisfying the mask.  The second component is the source frame as the
operation leaves it: boolean indexing copies and never mutates its source. -/
def maskSelect (df : Table) (p : List (Option String) → Bool) : Table × Table :=
  (⟨df.columns, df.rows.filter p⟩, df)

/-- `searches = df[df["action"].str.lower() == "search"]`. -/
def searchesOf (df : Table) : Table :=
  (maskSelect df (searchMask df)).1

/-- `downloads = df[df["action"].str.lower().isin(["download", "downloaded"])]`. -/
def downloadsOf (df : Table) : Table :=
  (maskSelect df (downloadMask df)).1

/-- Distinct values of a list in first-encounter order, skipping values already
seen: the key order of the pandas `value_counts` hash table. -/
def uniqueKeysAux (seen : List String) : List String → List String
  | [] => []
  | x :: xs =>
      if x ∈ seen then uniqueKeysAux seen xs
      else x :: uniqueKeysAux (x :: seen) xs

/-- Distinct values in first-encounter order. -/
def uniqueKeys (xs : List String) : List String :=
  uniqueKeysAux [] xs

/-- One ranking entry per distinct value: the (value, count) pair together with
the index of the first occurrence of the value in the series. -/
def countEntries (xs : List String) : List ((String × Nat) × Nat) :=
  (uniqueKeys xs).map (fun v => ((v, xs.count v), xs.indexOf v))

/-- Ranking order used by `value_counts` + `nlargest`: strictly larger counts
first, equal counts in first-encounter order. -/
def rankLE (a b : (String × Nat) × Nat) : Prop :=
  b.1.2 < a.1.2 ∨ (a.1.2 = b.1.2 ∧ a.2 ≤ b.2)

instance : DecidableRel rankLE := fun a b =>
  inferInstanceAs (Decidable (b.1.2 < a.1.2 ∨ (a.1.2 = b.1.2 ∧ a.2 ≤ b.2)))

instance : IsTotal ((String × Nat) × Nat) rankLE where
  total a b := by
    rcases Nat.lt_trichotomy a.1.2 b.1.2 with h | h | h
    · exact Or.inr (Or.inl h)
    · rcases Nat.le_total a.2 b.2 with h2 | h2
      · exact Or.inl (Or.inr ⟨h, h2⟩)
      · exact Or.inr (Or.inr ⟨h.symm, h2⟩)
    · exact Or.inl (Or.inl h)

instance : IsTrans ((String × Nat) × Nat) rankLE where
  trans a b c hab hbc := by
    rcases hab with h1 | ⟨h1, h1i⟩ <;> rcases hbc with h2 | ⟨h2, h2i⟩
    · exact Or.inl (Nat.lt_trans h2 h1)
    · exact Or.inl (h2 ▸ h1)
    · exact Or.inl (Nat.lt_of_lt_of_le h2 (Nat.le_of_eq h1.symm))
    · exact Or.inr ⟨h1.trans h2, Nat.le_trans h1i h2i⟩

/-- The ranked entries of a series: `value_counts()` output order (counts
descending, ties in first-encounter order), with the first-occurrence index
still attached. -/
def rankEntries (xs : List String) : List ((String × Nat) × Nat) :=
  List.insertionSort rankLE (countEntries xs)

/-- `series.value_counts().nlargest(top_n)` as used in `plot_and_save`:
the top `n` (value, count) pairs by descending count, ties kept in
first-encounter order. -/
def topCounts (xs : List String) (n : Nat) : List (String × Nat) :=
  ((rankEntries xs).take n).map Prod.fst

/-- pandas `series.nunique()`: number of distinct non-missing values. -/
def nunique (s : List (Option String)) : Nat :=
  (uniqueKeys (dropna s)).length

/-- The rendered bar chart persisted by `plot_and_save`: title, file name,
axis labels and the ranked bars in drawing order. -/
structure Chart where
  title : String
  fname : String
  xlabel : String
  ylabel : String
  bars : List (String × Nat)
deriving DecidableEq

/-- `plot_and_save(series, title, fname, xlabel, ylabel, top_n)`: ranks the
series, draws the bars in ranked order, saves the image under `OUT_DIR` and
returns the saved path together with the chart content that was written. -/
def plot_and_save (series : List String) (title fname xlabel ylabel : String)
    (top_n : Nat) : String × Chart :=
  let top := topCounts series top_n
  let outpath := OUT_DIR ++ "/" ++ fname
  (outpath, ⟨title, fname, xlabel, ylabel, top⟩)

/-- Failures of `load_data`. -/
inductive LoadError
  /-- `FileNotFoundError` with its message, raised when the path is absent. -/
  | fileNotFound (msg : String)
  /-- `pd.read_csv` cannot parse the file as tabular data at all. -/
  | notTabular
  /-- `pd.read_csv(..., parse_dates=["timestamp"])` raises when the
  `timestamp` column is absent. -/
  | missingTimestamp
deriving DecidableEq

/-- Failures of a whole run of `main`. -/
inductive RunError
  /-- A `load_data` failure propagating out of `main`. -/
  | load (e : LoadError)
  /-- `KeyError` from `df[col]` on an absent column. -/
  | keyError (col : String)
deriving DecidableEq

/-- The state of the input path on disk: whether a file is present, and the
table it parses to (`none` when the contents are not parseable as tabular
data). -/
structure InputFile where
  pathExists : Bool
  parsed : Option Table
deriving DecidableEq

/-- `load_data(path)`: raise `FileNotFoundError` when the path is absent,
otherwise parse with `pd.read_csv(path, parse_dates=["timestamp"])`. -/
def load_data (path : String) (f : InputFile) : Except LoadError Table :=
  if f.pathExists then
    match f.parsed with
    | none => .error .notTabular
    | some df =>
        if "timestamp" ∈ df.columns then .ok df
        else .error .missingTimestamp
  else
    .error (.fileNotFound (path ++ " not found. Provide a sample CSV as described in README."))

/-- The summary statistics table built by `main`.  `unique_users` is `none`
exactly when the `user_id` column is absent (rendered as `N/A`). -/
structure Stats where
  total_events : Nat
  unique_users : Option Nat
  total_searches : Nat
deriving DecidableEq

/-- The assembled HTML report: the stats and the chart sections in document
order, each section a heading plus the `img` source file name it embeds. -/
structure Report where
  stats : Stats
  sections : List (String × String)
deriving DecidableEq

/-- Everything a successful run leaves behind: the chart files saved by
`plot_and_save` (path and content, in save order) and the report. -/
structure RunOutput where
  chartsSaved : List (String × Chart)
  report : Report
deriving DecidableEq

/-- The body of `main` after a successful load and with the mandatory
`action` column present: segment, rank and render each available chart topic,
compute the stats, and assemble the report sections. -/
def buildRun (df : Table) : RunOutput :=
  let searches := searchesOf df
  let p1 :=
    if "term" ∈ df.columns then
      some (plot_and_save (dropna (colValues searches "term"))
        "Top Searched Legal Terms" "top_searched_terms.png" "Term" "Count" 10)
    else none
  let downloads := downloadsOf df
  let p2 :=
    if "form_id" ∈ df.columns then
      some (plot_and_save (dropna (colValues downloads "form_id"))
        "Top Downloaded Forms" "top_downloaded_forms.png" "Form ID" "Count" 10)
    else none
  let p3 :=
    if "category" ∈ df.columns then
      some (plot_and_save (dropna (colValues df "category"))
        "Top Categories" "top_categories.png" "Category" "Count" 10)
    else none
  let stats : Stats :=
    ⟨df.rows.length,
     if "user_id" ∈ df.columns then some (nunique (colValues df "user_id")) else none,
     searches.rows.length⟩
  let saved :=
    (match p1 with | some pc => [pc] | none => []) ++
    (match p2 with | some pc => [pc] | none => []) ++
    (match p3 with | some pc => [pc] | none => [])
  let secs :=
    (match p1 with | some _ => [("Top Searched Terms", "top_searched_terms.png")] | none => []) ++
    (match p2 with | some _ => [("Top Downloaded Forms", "top_downloaded_forms.png")] | none => []) ++
    (match p3 with | some _ => [("Top Categories", "top_categories.png")] | none => [])
  ⟨saved, ⟨stats, secs⟩⟩

/-- `main()`: load the data, then run the pipeline.  `df["action"]` on a frame
without an `action` column raises `KeyError` at the first segment filter,
before any chart or report output. -/
def main (f : InputFile) : Except RunError RunOutput :=
  match load_data INPUT_CSV f with
  | .error e => .error (.load e)
  | .ok df =>
      if "action" ∈ df.columns then .ok (buildRun df)
      else .error (.keyError "action")

/-- The world the script runs in: the output directory flag and the input
file.  Module level code runs `os.makedirs(OUT_DIR, exist_ok=True)` before
`main` is entered. -/
structure FileSystem where
  outDirExists : Bool
  input : InputFile
deriving DecidableEq

/-- One process invocation of the script: the module-level
`os.makedirs(OUT_DIR, exist_ok=True)` runs first (so the output directory
exists afterwards whatever happens), then `main`.  Returns the final state of
the output-directory flag together with the result of `main`. -/
def program (fs : FileSystem) : Bool × Except RunError RunOutput :=
  let outDirExists := true
  (outDirExists, main fs.input)

/-- The data underlying the report of a run: the summary statistics and the
ranked bars of each saved chart, in order. -/
def rankedData (o : RunOutput) : Stats × List (List (String × Nat)) :=
  (o.report.stats, o.chartsSaved.map (fun pc => pc.2.bars))

/-! ### Helper lemmas about the frequency ranker -/

theorem mem_uniqueKeysAux (seen : List String) (xs : List String) (a : String) :
    a ∈ uniqueKeysAux seen xs ↔ (a ∈ xs ∧ a ∉ seen) := by
  induction xs generalizing seen with
  | nil => simp [uniqueKeysAux]
  | cons x xs ih =>
    by_cases hx : x ∈ seen
    · simp only [uniqueKeysAux, hx, if_true, ih, List.mem_cons]
      constructor
      · rintro ⟨h1, h2⟩
        exact ⟨Or.inr h1, h2⟩
      · rintro ⟨h1 | h1, h2⟩
        · exact absurd (h1 ▸ hx) h2
        · exact ⟨h1, h2⟩
    · simp only [uniqueKeysAux, hx, if_false, List.mem_cons, ih]
      constructor
      · rintro (rfl | ⟨h1, h2⟩)
        · exact ⟨Or.inl rfl, hx⟩
        · exact ⟨Or.inr h1, fun hs => h2 (Or.inr hs)⟩
      · rintro ⟨rfl | h1, h2⟩
        · exact Or.inl rfl
        · by_cases ha : a = x
          · exact Or.inl ha
          · refine Or.inr ⟨h1, fun hs => ?_⟩
            rcases hs with h | h
            · exact ha h
            · exact h2 h

theorem nodup_uniqueKeysAux (seen : List String) (xs : List String) :
    (uniqueKeysAux seen xs).Nodup := by
  induction xs generalizing seen with
  | nil => simp [uniqueKeysAux]
  | cons x xs ih =>
    by_cases hx : x ∈ seen
    · simpa [uniqueKeysAux, hx] using ih seen
    · simp only [uniqueKeysAux, hx, if_false, List.nodup_cons]
      refine ⟨fun hm => ?_, ih _⟩
      exact ((mem_uniqueKeysAux _ _ _).mp hm).2 (List.mem_cons_self _ _)

theorem mem_uniqueKeys (xs : List String) (a : String) :
    a ∈ uniqueKeys xs ↔ a ∈ xs := by
  simp [uniqueKeys, mem_uniqueKeysAux]

theorem nodup_uniqueKeys (xs : List String) : (uniqueKeys xs).Nodup :=
  nodup_uniqueKeysAux _ _

theorem mem_countEntries {xs : List String} {e : (String × Nat) × Nat}
    (he : e ∈ countEntries xs) :
    e.1.1 ∈ xs ∧ e.1.2 = xs.count e.1.1 ∧ e.2 = xs.indexOf e.1.1 := by
  simp only [countEntries, List.mem_map] at he
  obtain ⟨v, hv, rfl⟩ := he
  exact ⟨(mem_uniqueKeys xs v).mp hv, rfl, rfl⟩

theorem values_countEntries (xs : List String) :
    (countEntries xs).map (fun e => e.1.1) = uniqueKeys xs := by
  have h : ((fun e : (String × Nat) × Nat => e.1.1) ∘
      fun v => ((v, xs.count v), xs.indexOf v)) = id := rfl
  rw [countEntries, List.map_map, h, List.map_id]

theorem perm_rankEntries (xs : List String) :
    (rankEntries xs).Perm (countEntries xs) :=
  List.perm_insertionSort rankLE _

theorem sorted_rankEntries (xs : List String) :
    List.Pairwise rankLE (rankEntries xs) :=
  List.sorted_insertionSort rankLE _

theorem mem_rankEntries {xs : List String} {e : (String × Nat) × Nat}
    (he : e ∈ rankEntries xs) :
    e.1.1 ∈ xs ∧ e.1.2 = xs.count e.1.1 ∧ e.2 = xs.indexOf e.1.1 :=
  mem_countEntries ((perm_rankEntries xs).mem_iff.mp he)

theorem distinct_values_rankEntries (xs : List String) :
    List.Pairwise (fun a b : (String × Nat) × Nat => a.1.1 ≠ b.1.1) (rankEntries xs) := by
  have h1 : ((countEntries xs).map (fun e => e.1.1)).Nodup := by
    rw [values_countEntries]
    exact nodup_uniqueKeys xs
  have h2 : ((rankEntries xs).map (fun e => e.1.1)).Nodup :=
    (((perm_rankEntries xs).map _).nodup_iff).mpr h1
  exact List.pairwise_map.mp h2

theorem mem_dropna {s : List (Option String)} {a : String} :
    a ∈ dropna s ↔ some a ∈ s := by
  simp [dropna, List.mem_filterMap]

theorem topCounts_length_le (xs : List String) (n : Nat) :
    (topCounts xs n).length ≤ n := by
  rw [topCounts, List.length_map, List.length_take]
  exact Nat.min_le_left _ _

theorem mem_topCounts {xs : List String} {n : Nat} {e : String × Nat}
    (he : e ∈ topCounts xs n) : e.1 ∈ xs ∧ e.2 = xs.count e.1 := by
  rw [topCounts, List.mem_map] at he
  obtain ⟨x, hx, rfl⟩ := he
  have h := mem_rankEntries ((List.take_sublist n _).subset hx)
  exact ⟨h.1, h.2.1⟩

theorem pairwise_topCounts (xs : List String) (n : Nat) :
    List.Pairwise (fun a b : String × Nat =>
      b.2 < a.2 ∨ (a.2 = b.2 ∧ xs.indexOf a.1 < xs.indexOf b.1)) (topCounts xs n) := by
  have h0 : List.Pairwise (fun a b : (String × Nat) × Nat => rankLE a b ∧ a.1.1 ≠ b.1.1)
      (rankEntries xs) := (sorted_rankEntries xs).and (distinct_values_rankEntries xs)
  have h1 := List.Pairwise.sublist (List.take_sublist n (rankEntries xs)) h0
  rw [topCounts, List.pairwise_map]
  refine List.Pairwise.imp_of_mem ?_ h1
  intro a b ha hb hab
  have haf := mem_rankEntries ((List.take_sublist n _).subset ha)
  have hbf := mem_rankEntries ((List.take_sublist n _).subset hb)
  rcases hab with ⟨hle | ⟨hceq, hile⟩, hne⟩
  · exact Or.inl hle
  · refine Or.inr ⟨hceq, ?_⟩
    rw [haf.2.2, hbf.2.2] at hile
    refine lt_of_le_of_ne hile (fun heq => hne ?_)
    exact (List.indexOf_inj haf.1 hbf.1).mp heq

/-- C2: for every series (here: any raw column, with missing values dropped
first, as every chart call in `main` does), the ranked frequency table
`value_counts().nlargest(10)` has at most 10 entries, is sorted by count
descending, contains only values actually present (non-null) in the column
with their true counts (hence no null entries), and breaks ties between equal
counts by first-encounter order in the series. -/
theorem topCounts_spec (s : List (Option String)) :
    (topCounts (dropna s) 10).length ≤ 10
    ∧ List.Pairwise (fun a b : String × Nat => b.2 ≤ a.2) (topCounts (dropna s) 10)
    ∧ (∀ e ∈ topCounts (dropna s) 10,
        some e.1 ∈ s ∧ e.2 = (dropna s).count e.1 ∧ 0 < e.2)
    ∧ List.Pairwise (fun a b : String × Nat =>
        b.2 < a.2 ∨ (a.2 = b.2 ∧ (dropna s).indexOf a.1 < (dropna s).indexOf b.1))
        (topCounts (dropna s) 10) := by
  refine ⟨topCounts_length_le _ _, ?_, ?_, pairwise_topCounts _ _⟩
  · refine (pairwise_topCounts (dropna s) 10).imp (fun h => ?_)
    rcases h with h | ⟨h, -⟩
    · exact Nat.le_of_lt h
    · exact Nat.le_of_eq h.symm
  · intro e he
    have h := mem_topCounts he
    refine ⟨mem_dropna.mp h.1, h.2, ?_⟩
    rw [h.2]
    exact List.count_pos_iff.mpr h.1

/-- Witness for C2: the concrete series `[b, a, NaN, a, b, c]`, on which the
entry `(a, 2)` of the ranked table is checked against the series. -/
theorem topCounts_spec_instance :
    (topCounts (dropna [some "b", some "a", none, some "a", some "b", some "c"]) 10).length ≤ 10
    ∧ (some "a" ∈ [some "b", some "a", none, some "a", some "b", some "c"]
        ∧ (2 : Nat) = (dropna [some "b", some "a", none, some "a", some "b", some "c"]).count "a"
        ∧ (0 : Nat) < 2) := by
  refine ⟨(topCounts_spec _).1, ?_⟩
  exact (topCounts_spec [some "b", some "a", none, some "a", some "b", some "c"]).2.2.1
      ("a", 2) (by decide)

theorem count_filterMap_eq {α : Type} (f : α → Option String) (l : List α) (v : String) :
    (l.filterMap f).count v = (l.filter (fun a => f a == some v)).length := by
  induction l with
  | nil => rfl
  | cons a l ih =>
    cases h : f a with
    | none => simp [List.filterMap_cons, h, List.filter_cons, ih]
    | some b =>
      by_cases hb : b = v
      · subst hb
        simp [List.filterMap_cons, h, List.filter_cons, List.count_cons, ih]
      · simp [List.filterMap_cons, h, List.filter_cons, List.count_cons, ih, hb]

theorem count_dropna_colValues (t : Table) (c : String) (v : String) :
    (dropna (colValues t c)).count v
      = (t.rows.filter (fun r => cell t r c == some v)).length := by
  rw [dropna, colValues, List.filterMap_map]
  exact count_filterMap_eq _ _ _

/-! ### The claims -/

/-- C4: for every path absent from disk, `load_data` fails with a
`FileNotFoundError` whose message names the expected path and tells the user
to provide a sample CSV, and `main` propagates it, so the run terminates
fatally with no `RunOutput` (no output is claimed as complete). -/
theorem missing_input_fatal (path : String) (f : InputFile) (h : f.pathExists = false) :
    load_data path f
      = .error (.fileNotFound (path ++ " not found. Provide a sample CSV as described in README."))
    ∧ main f
      = .error (.load (.fileNotFound
          (INPUT_CSV ++ " not found. Provide a sample CSV as described in README."))) := by
  constructor
  · simp [load_data, h]
  · simp [main, load_data, h]

/-- Witness for C4: a concrete missing input file. -/
theorem missing_input_fatal_instance :
    load_data "user_activity.csv" ⟨false, none⟩
      = .error (.fileNotFound
          ("user_activity.csv" ++ " not found. Provide a sample CSV as described in README."))
    ∧ main ⟨false, none⟩
      = .error (.load (.fileNotFound
          (INPUT_CSV ++ " not found. Provide a sample CSV as described in README."))) :=
  missing_input_fatal "user_activity.csv" ⟨false, none⟩ rfl

/-- C5: the search segment holds exactly the rows whose action lowercases to
`search`, the download segment exactly those lowercasing to `download` or
`downloaded`, rows matching neither are simply in neither segment, and the
`total_searches` stat of the assembled run equals the size of the search
segment (the row count before any null-dropping of `term`). -/
theorem segment_semantics (df : Table) :
    (∀ r, r ∈ (searchesOf df).rows ↔
        (r ∈ df.rows ∧ (cell df r "action").map lowerStr = some "search"))
    ∧ (∀ r, r ∈ (downloadsOf df).rows ↔
        (r ∈ df.rows ∧ ((cell df r "action").map lowerStr = some "download"
          ∨ (cell df r "action").map lowerStr = some "downloaded")))
    ∧ (buildRun df).report.stats.total_searches = (searchesOf df).rows.length
    ∧ (searchesOf df).rows.length = df.rows.countP (searchMask df) := by
  refine ⟨?_, ?_, rfl, ?_⟩
  · intro r
    simp [searchesOf, maskSelect, List.mem_filter, searchMask]
  · intro r
    simp only [downloadsOf, maskSelect, List.mem_filter]
    cases hc : (cell df r "action").map lowerStr with
    | none => simp [downloadMask, hc]
    | some a => simp [downloadMask, hc]
  · rw [List.countP_eq_length_filter]
    rfl

/-- Witness for C5: a two-row table where the mixed-case action `Search`
lands in the search segment, and the stat equation is checked there. -/
theorem segment_semantics_instance :
    [some "t", some "Search", some "lease"]
      ∈ (searchesOf ⟨["timestamp", "action", "term"],
          [[some "t", some "Search", some "lease"],
           [some "t", some "DOWNLOAD", none]]⟩).rows
    ∧ (buildRun ⟨["timestamp", "action", "term"],
          [[some "t", some "Search", some "lease"],
           [some "t", some "DOWNLOAD", none]]⟩).report.stats.total_searches
      = (searchesOf ⟨["timestamp", "action", "term"],
          [[some "t", some "Search", some "lease"],
           [some "t", some "DOWNLOAD", none]]⟩).rows.length := by
  constructor
  · exact ((segment_semantics ⟨["timestamp", "action", "term"],
      [[some "t", some "Search", some "lease"],
       [some "t", some "DOWNLOAD", none]]⟩).1 _).mpr ⟨by decide, by decide⟩
  · exact (segment_semantics ⟨["timestamp", "action", "term"],
      [[some "t", some "Search", some "lease"],
       [some "t", some "DOWNLOAD", none]]⟩).2.2.1

/-- C7: the ranked data of a run (summary statistics and the ranked bars of
every saved chart) is a deterministic function of the input file: two
invocations over the same input, whatever the prior state of the output
directory, produce identical stats and rankings. -/
theorem ranked_data_deterministic (fs1 fs2 : FileSystem) (h : fs1.input = fs2.input) :
    ((program fs1).2).map rankedData = ((program fs2).2).map rankedData := by
  simp only [program]
  rw [h]

/-- Witness for C7: the same input under two different prior output-directory
states. -/
theorem ranked_data_deterministic_instance :
    ((program ⟨false, ⟨true, some ⟨["timestamp", "action"], []⟩⟩⟩).2).map rankedData
      = ((program ⟨true, ⟨true, some ⟨["timestamp", "action"], []⟩⟩⟩).2).map rankedData :=
  ranked_data_deterministic _ _ rfl

/-- C8: computing the search and download segments leaves the source record
set unchanged: pandas boolean-mask selection returns a derived copy and the
source frame after both filters is the frame that was given. -/
theorem segments_do_not_mutate (df : Table) :
    (maskSelect df (searchMask df)).2 = df ∧ (maskSelect df (downloadMask df)).2 = df :=
  ⟨rfl, rfl⟩

/-- C9: the Top Categories chart is fed from the whole record set: the count
of a category value is the number of *all* rows carrying it, with no action
filter, whereas the term chart counts only within the search segment; and the
category chart saved by the run ranks the category column of the full table. -/
theorem category_counts_full_table (df : Table) (v : String) :
    (dropna (colValues df "category")).count v
      = (df.rows.filter (fun r => cell df r "category" == some v)).length
    ∧ (dropna (colValues (searchesOf df) "term")).count v
      = ((df.rows.filter (searchMask df)).filter
          (fun r => cell df r "term" == some v)).length
    ∧ ("category" ∈ df.columns →
        (OUT_DIR ++ "/" ++ "top_categories.png",
          (⟨"Top Categories", "top_categories.png", "Category", "Count",
            topCounts (dropna (colValues df "category")) 10⟩ : Chart))
          ∈ (buildRun df).chartsSaved) := by
  refine ⟨count_dropna_colValues df "category" v, ?_, ?_⟩
  · exact count_dropna_colValues (searchesOf df) "term" v
  · intro h
    simp only [buildRun, h, if_true, plot_and_save]
    exact List.mem_append_right _ (List.mem_singleton_self _)

/-- Witness for C9: a one-row table whose only row is a download with a
category value; its category still counts, and the category chart is saved. -/
theorem category_counts_full_table_instance :
    (dropna (colValues ⟨["timestamp", "action", "category"],
        [[some "t", some "download", some "housing"]]⟩ "category")).count "housing"
      = ((⟨["timestamp", "action", "category"],
          [[some "t", some "download", some "housing"]]⟩ : Table).rows.filter
          (fun r => cell ⟨["timestamp", "action", "category"],
            [[some "t", some "download", some "housing"]]⟩ r "category" == some "housing")).length
    ∧ (OUT_DIR ++ "/" ++ "top_categories.png",
        (⟨"Top Categories", "top_categories.png", "Category", "Count",
          topCounts (dropna (colValues ⟨["timestamp", "action", "category"],
            [[some "t", some "download", some "housing"]]⟩ "category")) 10⟩ : Chart))
        ∈ (buildRun ⟨["timestamp", "action", "category"],
            [[some "t", some "download", some "housing"]]⟩).chartsSaved := by
  constructor
  · exact (category_counts_full_table ⟨["timestamp", "action", "category"],
      [[some "t", some "download", some "housing"]]⟩ "housing").1
  · exact (category_counts_full_table ⟨["timestamp", "action", "category"],
      [[some "t", some "download", some "housing"]]⟩ "housing").2.2 (by decide)

theorem topCounts_nil (n : Nat) : topCounts [] n = [] := by
  cases n <;> rfl

/-- C1 is refuted: on a table whose `form_id` column exists but whose download
frequency table is empty after null-dropping, the run does succeed, but the
affected chart section is not omitted — the empty chart is saved to disk and
referenced by an img section in the report. -/
theorem empty_download_table_still_charted :
    dropna (colValues (downloadsOf ⟨["timestamp", "action", "form_id"],
        [[some "t1", some "download", none]]⟩) "form_id") = []
    ∧ main ⟨true, some ⟨["timestamp", "action", "form_id"],
        [[some "t1", some "download", none]]⟩⟩
      = .ok ⟨[(OUT_DIR ++ "/" ++ "top_downloaded_forms.png",
              ⟨"Top Downloaded Forms", "top_downloaded_forms.png", "Form ID", "Count", []⟩)],
          ⟨⟨1, none, 0⟩, [("Top Downloaded Forms", "top_downloaded_forms.png")]⟩⟩ :=
  ⟨rfl, rfl⟩

/-- C1 as amended: when a chart-topic column exists but its frequency table is
empty after null-dropping, the run still succeeds and the rest of the
pipeline proceeds unaffected, but the affected chart section is NOT omitted:
an empty chart is rendered, saved, and referenced in the report.  For a
zero-row input the summary stats do report `total_events = 0` and
`total_searches = 0`. -/
theorem empty_table_sections_emitted (f : InputFile) (df : Table)
    (hp : f.pathExists = true) (hdf : f.parsed = some df)
    (ht : "timestamp" ∈ df.columns) (ha : "action" ∈ df.columns) :
    main f = .ok (buildRun df)
    ∧ ("term" ∈ df.columns → dropna (colValues (searchesOf df) "term") = [] →
        (OUT_DIR ++ "/" ++ "top_searched_terms.png",
          (⟨"Top Searched Legal Terms", "top_searched_terms.png", "Term", "Count", []⟩ : Chart))
          ∈ (buildRun df).chartsSaved
        ∧ ("Top Searched Terms", "top_searched_terms.png") ∈ (buildRun df).report.sections)
    ∧ ("form_id" ∈ df.columns → dropna (colValues (downloadsOf df) "form_id") = [] →
        (OUT_DIR ++ "/" ++ "top_downloaded_forms.png",
          (⟨"Top Downloaded Forms", "top_downloaded_forms.png", "Form ID", "Count", []⟩ : Chart))
          ∈ (buildRun df).chartsSaved
        ∧ ("Top Downloaded Forms", "top_downloaded_forms.png") ∈ (buildRun df).report.sections)
    ∧ ("category" ∈ df.columns → dropna (colValues df "category") = [] →
        (OUT_DIR ++ "/" ++ "top_categories.png",
          (⟨"Top Categories", "top_categories.png", "Category", "Count", []⟩ : Chart))
          ∈ (buildRun df).chartsSaved
        ∧ ("Top Categories", "top_categories.png") ∈ (buildRun df).report.sections)
    ∧ (df.rows = [] →
        (buildRun df).report.stats.total_events = 0
        ∧ (buildRun df).report.stats.total_searches = 0) := by
  refine ⟨?_, ?_, ?_, ?_, ?_⟩
  · simp [main, load_data, hp, hdf, ht, ha]
  · intro h h0
    constructor
    · simp [buildRun, h, plot_and_save, h0, topCounts_nil, List.mem_append]
    · simp [buildRun, h, List.mem_append]
  · intro h h0
    constructor
    · simp [buildRun, h, plot_and_save, h0, topCounts_nil, List.mem_append]
    · simp [buildRun, h, List.mem_append]
  · intro h h0
    constructor
    · simp [buildRun, h, plot_and_save, h0, topCounts_nil, List.mem_append]
    · simp [buildRun, h, List.mem_append]
  · intro h
    constructor
    · simp [buildRun, h]
    · simp [buildRun, h, searchesOf, maskSelect]

/-- Witness for C1: the one-row download table with a null `form_id`; the run
succeeds and the empty download chart is saved anyway. -/
theorem empty_table_sections_emitted_instance :
    main ⟨true, some ⟨["timestamp", "action", "form_id"],
        [[some "t1", some "download", none]]⟩⟩
      = .ok (buildRun ⟨["timestamp", "action", "form_id"],
          [[some "t1", some "download", none]]⟩)
    ∧ (OUT_DIR ++ "/" ++ "top_downloaded_forms.png",
        (⟨"Top Downloaded Forms", "top_downloaded_forms.png", "Form ID", "Count", []⟩ : Chart))
        ∈ (buildRun ⟨["timestamp", "action", "form_id"],
            [[some "t1", some "download", none]]⟩).chartsSaved := by
  have h := empty_table_sections_emitted
    ⟨true, some ⟨["timestamp", "action", "form_id"], [[some "t1", some "download", none]]⟩⟩
    ⟨["timestamp", "action", "form_id"], [[some "t1", some "download", none]]⟩
    rfl rfl (by decide) (by decide)
  exact ⟨h.1, (h.2.2.1 (by decide) rfl).1⟩

/-- C3 is refuted: a parseable input whose mandatory `action` column is absent
loads successfully — `load_data` raises no error on it. -/
theorem missing_action_loads_ok :
    "action" ∉ (Table.mk ["timestamp", "term"] []).columns
    ∧ load_data INPUT_CSV ⟨true, some (Table.mk ["timestamp", "term"] [])⟩
      = .ok (Table.mk ["timestamp", "term"] []) :=
  ⟨by decide, rfl⟩

/-- C3 as amended: an input that cannot be parsed as tabular data fails at
loading and the run aborts; an input that parses but lacks the mandatory
`action` column loads successfully and the run instead aborts at the first
segment-filter access `df["action"]` inside `main` with a `KeyError` — in
both cases the run aborts before any chart or report output is produced. -/
theorem unparsable_or_missing_action_aborts (f : InputFile) (hp : f.pathExists = true) :
    (f.parsed = none → main f = .error (.load .notTabular))
    ∧ (∀ df : Table, f.parsed = some df → "timestamp" ∈ df.columns →
        "action" ∉ df.columns → main f = .error (.keyError "action")) := by
  constructor
  · intro h
    simp [main, load_data, hp, h]
  · intro df hdf ht ha
    simp [main, load_data, hp, hdf, ht, ha]

/-- Witness for C3: a concrete unparsable file and a concrete parseable
action-less file. -/
theorem unparsable_or_missing_action_aborts_instance :
    main ⟨true, none⟩ = .error (.load .notTabular)
    ∧ main ⟨true, some (Table.mk ["timestamp", "term"] [])⟩
      = .error (.keyError "action") :=
  ⟨(unparsable_or_missing_action_aborts ⟨true, none⟩ rfl).1 rfl,
   (unparsable_or_missing_action_aborts ⟨true, some (Table.mk ["timestamp", "term"] [])⟩ rfl).2
      (Table.mk ["timestamp", "term"] []) rfl (by decide) (by decide)⟩

/-- C6: for every successful run, a chart section appears in the report iff
the corresponding chart image file was saved, a chart file is saved iff its
source column exists in the input (absent columns suppress the section
without failing the run), and every section and saved file is one of the
three known ones — no orphaned images, no broken references. -/
theorem sections_iff_files_iff_columns (f : InputFile) (df : Table) (out : RunOutput)
    (hdf : f.parsed = some df) (h : main f = .ok out) :
    (∀ p ∈ [("Top Searched Terms", "top_searched_terms.png", "term"),
            ("Top Downloaded Forms", "top_downloaded_forms.png", "form_id"),
            ("Top Categories", "top_categories.png", "category")],
        ((p.1, p.2.1) ∈ out.report.sections
          ↔ ∃ c : Chart, (OUT_DIR ++ "/" ++ p.2.1, c) ∈ out.chartsSaved)
        ∧ ((p.1, p.2.1) ∈ out.report.sections ↔ p.2.2 ∈ df.columns))
    ∧ (∀ s ∈ out.report.sections,
        s ∈ [("Top Searched Terms", "top_searched_terms.png"),
             ("Top Downloaded Forms", "top_downloaded_forms.png"),
             ("Top Categories", "top_categories.png")])
    ∧ (∀ pc ∈ out.chartsSaved,
        pc.1 ∈ [OUT_DIR ++ "/" ++ "top_searched_terms.png",
                OUT_DIR ++ "/" ++ "top_downloaded_forms.png",
                OUT_DIR ++ "/" ++ "top_categories.png"]) := by
  have hout : out = buildRun df := by
    by_cases hp : f.pathExists
    · by_cases ht : "timestamp" ∈ df.columns
      · by_cases ha : "action" ∈ df.columns
        · simp [main, load_data, hp, hdf, ht, ha] at h
          exact h.symm
        · simp [main, load_data, hp, hdf, ht, ha] at h
      · simp [main, load_data, hp, hdf, ht] at h
    · simp [main, load_data, hp] at h
  subst hout
  by_cases h1 : "term" ∈ df.columns <;>
    by_cases h2 : "form_id" ∈ df.columns <;>
      by_cases h3 : "category" ∈ df.columns <;>
        simp [buildRun, h1, h2, h3, plot_and_save, List.mem_append, OUT_DIR]

/-- Witness for C6: a successful run over a table with none of the optional
columns: no file is saved and no section is emitted. -/
theorem sections_iff_files_iff_columns_instance :
    (("Top Categories", "top_categories.png")
        ∈ (RunOutput.mk [] ⟨⟨0, none, 0⟩, []⟩).report.sections
      ↔ "category" ∈ (Table.mk ["timestamp", "action"] []).columns) := by
  have h := sections_iff_files_iff_columns
    ⟨true, some (Table.mk ["timestamp", "action"] [])⟩
    (Table.mk ["timestamp", "action"] [])
    (RunOutput.mk [] ⟨⟨0, none, 0⟩, []⟩) rfl rfl
  exact (h.1 ("Top Categories", "top_categories.png", "category") (by decide)).2

/-- C10: the output directory is created by module-level code before `main`
checks the input path, so after any invocation the directory exists, even
when the run aborts fatally because the input file is missing. -/
theorem outdir_created_before_input_check (fs : FileSystem) :
    (program fs).1 = true
    ∧ (fs.input.pathExists = false →
        (program fs).2 = .error (.load (.fileNotFound
          (INPUT_CSV ++ " not found. Provide a sample CSV as described in README.")))) := by
  refine ⟨rfl, fun h => ?_⟩
  simp [program, main, load_data, h]

/-- Witness for C10: a world with no output directory and no input file: the
run fails fatally, yet the output directory flag ends up set. -/
theorem outdir_created_before_input_check_instance :
    (program ⟨false, ⟨false, none⟩⟩).1 = true
    ∧ (program ⟨false, ⟨false, none⟩⟩).2 = .error (.load (.fileNotFound
        (INPUT_CSV ++ " not found. Provide a sample CSV as described in README."))) :=
  ⟨(outdir_created_before_input_check ⟨false, ⟨false, none⟩⟩).1,
   (outdir_created_before_input_check ⟨false, ⟨false, none⟩⟩).2 rfl⟩

end RightsReport
